import Mathlib

/-!
Verification development for the pole-studio page scraper
(`2_Scraper/2_Functions/a_PoleStudio_URL_S_V6_Func.py`).

The Python module defines a class `PoleStudioScraper` of field extractors
over a BeautifulSoup document tree, a `ScraperErrorManager` that logs
retrieval errors (severity error) and element errors (severity warning),
and a module-level batch loop over a list of URLs guarded by
`try/except`.

Embedding conventions:
* Python strings are modelled as `List Char` (`Str`); the Python methods
  `split`, `strip`, `replace`, `startswith` are re-implemented with
  Python semantics as structurally recursive functions.
* The BeautifulSoup tree is modelled by `Node`: an element with a tag
  name, a class-attribute string, further attributes and children, or a
  text node.  `soup.find_all(tag, class_=c)` is modelled as a filter over
  the pre-order traversal of the document; `tag.find_all` searches the
  descendants of an element.  `.text` is the concatenation of all
  descendant text, as in BeautifulSoup's `get_text()`.
* Python list indexing, which raises `IndexError` out of range, is
  modelled by `pyGet` returning `Except PyErr`.  Extractors that can
  raise return `Except PyErr (Option _)`; total extractors return plain
  values.
-/

/-- Python strings, modelled as character lists. -/
abbrev Str := List Char

/-- Conversion from Lean string literals to the embedding's strings. -/
def str (s : String) : Str := s.toList

/-- Characters stripped by Python's `str.strip()`. -/
def isPySpace (c : Char) : Bool :=
  c = ' ' || c = '\t' || c = '\n' || c = '\r' || c = '\x0b' || c = '\x0c'

/-- Python `s.strip()`: drop whitespace from both ends. -/
def strStrip (s : Str) : Str :=
  ((s.dropWhile isPySpace).reverse.dropWhile isPySpace).reverse

/-- Worker for `strSplit`; the fuel bounds the scan and always suffices
(one unit per character of the input). -/
def strSplitGo (sep : Str) : Nat → Str → Str → List Str
  | _, [], cur => [cur.reverse]
  | 0, s, cur => [cur.reverse ++ s]
  | fuel + 1, c :: rest, cur =>
    if sep.isPrefixOf (c :: rest) then
      cur.reverse :: strSplitGo sep fuel (List.drop sep.length (c :: rest)) []
    else
      strSplitGo sep fuel rest (c :: cur)

/-- Python `s.split(sep)` for a non-empty separator: split at every
non-overlapping occurrence, keeping empty pieces. -/
def strSplit (s sep : Str) : List Str := strSplitGo sep s.length s []

/-- Worker for `strReplace`; fuel as in `strSplitGo`. -/
def strReplaceGo (pat repl : Str) : Nat → Str → Str
  | _, [] => []
  | 0, s => s
  | fuel + 1, c :: rest =>
    if pat.isPrefixOf (c :: rest) then
      repl ++ strReplaceGo pat repl fuel (List.drop pat.length (c :: rest))
    else
      c :: strReplaceGo pat repl fuel rest

/-- Python `s.replace(pat, repl)`: replace every non-overlapping
occurrence, left to right. -/
def strReplace (s pat repl : Str) : Str := strReplaceGo pat repl s.length s

/-- Python `s.startswith(pre)`. -/
def strStartsWith (s pre : Str) : Bool := pre.isPrefixOf s

/-- The one Python exception the extractors can raise: `IndexError` from
indexing a too-short list. -/
inductive PyErr where
  | indexError
deriving Repr, DecidableEq

/-- Human-readable form of a `PyErr`, as `str(exception)` would show. -/
def pyErrMsg : PyErr → String
  | .indexError => "IndexError"

/-- Python `l[i]` on a list: the element, or `IndexError` out of range
(negative indices are not used by the scraper). -/
def pyGet {α : Type} (l : List α) (i : Nat) : Except PyErr α :=
  match l.get? i with
  | some a => .ok a
  | none => .error .indexError

/-- A node of the parsed document: an element with tag name, class
attribute, other attributes and children, or a text node. -/
inductive Node where
  | elem (tag className : String) (attrs : List (String × Str)) (children : List Node)
  | text (s : Str)

mutual
/-- BeautifulSoup `.text`: concatenation of all descendant text. -/
def Node.innerText : Node → Str
  | .text s => s
  | .elem _ _ _ cs => innerTextList cs

/-- Concatenated text of a list of nodes, in order. -/
def innerTextList : List Node → Str
  | [] => []
  | n :: ns => n.innerText ++ innerTextList ns
end

mutual
/-- All descendants of a node in document (pre-)order, the node itself
excluded — the search space of `tag.find_all`. -/
def Node.descendants : Node → List Node
  | .text _ => []
  | .elem _ _ _ cs => descList cs

/-- All nodes of a forest in document (pre-)order: each root followed by
its descendants. -/
def descList : List Node → List Node
  | [] => []
  | n :: ns => n :: (n.descendants ++ descList ns)
end

/-- Attribute lookup, `tag[k]` / `tag.has_attr(k)`: the value of the
first attribute named `k`, if any. -/
def Node.attrVal (n : Node) (k : String) : Option Str :=
  match n with
  | .elem _ _ attrs _ => (attrs.find? (fun p => p.1 = k)).map (fun p => p.2)
  | .text _ => none

/-- Whether a node is an element with the given tag and (when a class
signature is given) exactly the given class attribute. -/
def nodeMatches (n : Node) (tag : String) (cls : Option String) : Bool :=
  match n with
  | .elem t c _ _ => t = tag && (match cls with | some s => c = s | none => true)
  | .text _ => false

/-- `soup.find_all(tag, class_=cls)`: every matching element of the
document, in document order. -/
def soupFindAll (doc : List Node) (tag : String) (cls : Option String) : List Node :=
  (descList doc).filter (fun n => nodeMatches n tag cls)

/-- `soup.find(tag, class_=cls)`: the first matching element, if any. -/
def soupFind (doc : List Node) (tag : String) (cls : Option String) : Option Node :=
  (soupFindAll doc tag cls).head?

/-- `tag.find_all(tag, class_=cls)` scoped to an element: matching
descendants in document order. -/
def Node.findAll (n : Node) (tag : String) (cls : Option String) : List Node :=
  n.descendants.filter (fun m => nodeMatches m tag cls)

/-- `tag.find(tag, class_=cls)` scoped to an element. -/
def Node.find (n : Node) (tag : String) (cls : Option String) : Option Node :=
  (n.findAll tag cls).head?

/-- `tag.find_all(t, href=True)`: matching descendants that carry an
`href` attribute. -/
def Node.findAllHref (n : Node) (tag : String) : List Node :=
  n.descendants.filter (fun m => nodeMatches m tag none && (m.attrVal "href").isSome)

/-- Class signature of the overview-button containers. -/
def clsOverview : String := "MuiStack-root css-sgccrm"

/-- Class signature of the studio-name heading. -/
def clsName : String := "MuiTypography-root MuiTypography-h1 css-qinhw0"

/-- Class signature of the contact containers. -/
def clsContact : String := "css-1x2phcg"

/-- Class signature of the address paragraph. -/
def clsAddress : String := "MuiTypography-root MuiTypography-body1 css-1619old"

/-- Class signature of the description container. -/
def clsDescription : String := "MuiBox-root css-0"

/-- Class signature of the rating paragraph. -/
def clsRating : String := "MuiTypography-root MuiTypography-body1 css-2g7rhg"

/-- Class signature of one rating-factor item. -/
def clsRatingFactorItem : String := "MuiStack-root css-95g4uk"

/-- Class signature of a rating-factor label paragraph. -/
def clsRatingFactorLabel : String := "MuiTypography-root MuiTypography-body1 css-1k55edk"

/-- Class signature of a rating-factor value paragraph. -/
def clsRatingFactorValue : String := "MuiTypography-root MuiTypography-body1 css-1y0caop"

/-- Class signature of the art paragraphs. -/
def clsArt : String := "MuiTypography-root MuiTypography-body1 css-6ik050"

/-- Class signature of the sale paragraph. -/
def clsSale : String := "MuiTypography-root MuiTypography-body1 css-153qxhx"

/-- Class signature of the picture containers. -/
def clsImage : String := "MuiBox-root css-1fivxf"

/-- `PoleStudioScraper.extract_overview_buttons`: the text of every
anchor inside every overview container, in document order. -/
def extract_overview_buttons (doc : List Node) : List Str :=
  (soupFindAll doc "div" (some clsOverview)).flatMap
    (fun d => (d.findAll "a" none).map Node.innerText)

/-- `PoleStudioScraper.extract_pole_studio_name`: text of the first
matching heading, else `None`. -/
def extract_pole_studio_name (doc : List Node) : Option Str :=
  (soupFind doc "h1" (some clsName)).map Node.innerText

/-- The contact mapping: a Python dict from the keys `E-Mail`,
`Homepage`, `Telefon` to an optional string. -/
abbrev ContactDict := List (String × Option Str)

/-- Python `d[k] = v`: overwrite the value of an existing key in place,
else append the new key at the end. -/
def dictSet (m : ContactDict) (k : String) (v : Option Str) : ContactDict :=
  if m.any (fun p => p.1 = k) then
    m.map (fun p => if p.1 = k then (p.1, v) else p)
  else
    m ++ [(k, v)]

/-- The initial contact dict of `extract_contact_info`. -/
def contactInit : ContactDict :=
  [("E-Mail", none), ("Homepage", none), ("Telefon", none)]

/-- One iteration of the anchor loop in `extract_contact_info`: classify
the href by its scheme and assign the corresponding key. -/
def contactStep (m : ContactDict) (href : Str) : ContactDict :=
  if strStartsWith href (str "mailto:") then
    dictSet m "E-Mail" (some (strReplace href (str "mailto:") (str "")))
  else if strStartsWith href (str "tel:") then
    dictSet m "Telefon" (some (strReplace href (str "tel:") (str "")))
  else
    dictSet m "Homepage" (some href)

/-- The hrefs visited by `extract_contact_info`: every anchor with an
`href` attribute inside every contact container, in document order. -/
def contactHrefs (doc : List Node) : List Str :=
  ((soupFindAll doc "div" (some clsContact)).flatMap
    (fun d => d.findAllHref "a")).filterMap (fun a => a.attrVal "href")

/-- `PoleStudioScraper.extract_contact_info`: fold the classification
loop over all contact anchors, starting from the three-key dict. -/
def extract_contact_info (doc : List Node) : ContactDict :=
  (contactHrefs doc).foldl contactStep contactInit

/-- `PoleStudioScraper.extract_address`: split the address text on
commas; the result tuple is, in the source's return order, the raw
segment list, token 2 of the space-split second segment (the city),
token 1 (the postal code), and the first segment (the street).  Any
out-of-range index raises `IndexError`; a missing address element gives
the all-`None` result. -/
def extract_address (doc : List Node) :
    Except PyErr (Option (List Str × Str × Str × Str)) :=
  match soupFind doc "p" (some clsAddress) with
  | some el => do
      let address_text := strSplit el.innerText (str ",")
      let seg ← pyGet address_text 1
      let city ← pyGet (strSplit seg (str " ")) 2
      let postal ← pyGet (strSplit seg (str " ")) 1
      let street ← pyGet address_text 0
      .ok (some (address_text, city, postal, street))
  | none => .ok none

/-- `PoleStudioScraper.extract_description`: text of the first matching
container, else `None`. -/
def extract_description (doc : List Node) : Option Str :=
  (soupFind doc "div" (some clsDescription)).map Node.innerText

/-- `PoleStudioScraper.extract_rating`: split the rating text at `(`;
the score is piece 0 stripped, the count is piece 1 with every `)`
removed and stripped.  Piece 1 raises `IndexError` when the text holds
no `(`; a missing rating element gives the `(None, None)` result. -/
def extract_rating (doc : List Node) : Except PyErr (Option (Str × Str)) :=
  match soupFind doc "p" (some clsRating) with
  | some el => do
      let parts := strSplit el.innerText (str "(")
      let p0 ← pyGet parts 0
      let p1 ← pyGet parts 1
      .ok (some (strStrip p0, strStrip (strReplace p1 (str ")") (str ""))))
  | none => .ok none

/-- The comprehension body of `extract_rating_factors`: the derived
entry of one item, or `none` when the label or value paragraph is
missing (the comprehension's filter). -/
def ratingFactorEntry (item : Node) : Option Str :=
  match item.find "p" (some clsRatingFactorLabel),
        item.find "p" (some clsRatingFactorValue) with
  | some l, some v => some (l.innerText ++ str ": " ++ v.innerText)
  | _, _ => none

/-- `PoleStudioScraper.extract_rating_factors`: the list comprehension
over all matching items, keeping only items with both paragraphs. -/
def extract_rating_factors (doc : List Node) : List Str :=
  (soupFindAll doc "div" (some clsRatingFactorItem)).filterMap ratingFactorEntry

/-- `PoleStudioScraper.extract_art`: text of every matching paragraph,
in document order. -/
def extract_art (doc : List Node) : List Str :=
  (soupFindAll doc "p" (some clsArt)).map Node.innerText

/-- `PoleStudioScraper.extract_sale`: text of the first matching
paragraph, else `None`. -/
def extract_sale (doc : List Node) : Option Str :=
  (soupFind doc "p" (some clsSale)).map Node.innerText

/-- The comprehension body of `extract_image_urls`: the `src` of the
first `img` descendant, or `none` when the `img` or its `src` attribute
is missing (the comprehension's walrus-and-`has_attr` filter). -/
def imageEntry (div : Node) : Option Str :=
  match div.find "img" none with
  | some img => img.attrVal "src"
  | none => none

/-- `PoleStudioScraper.extract_image_urls`: the list comprehension over
all picture containers. -/
def extract_image_urls (doc : List Node) : List Str :=
  (soupFindAll doc "div" (some clsImage)).filterMap imageEntry

/-- One entry of the `ScraperErrorManager` log: `handle_url_error` logs
at severity error, `handle_element_error` at severity warning; each
entry's message references the url (resp. element name) and the cause. -/
inductive LogEntry where
  | retrievalError (url : String) (cause : String)
  | fieldError (element : String) (cause : String)
deriving Repr, DecidableEq

/-- `ScraperErrorManager.handle_url_error`: log one retrieval error for
the url. -/
def handle_url_error (url cause : String) : LogEntry :=
  .retrievalError url cause

/-- `ScraperErrorManager.handle_element_error`: log one warning for the
element. -/
def handle_element_error (element cause : String) : LogEntry :=
  .fieldError element cause

/-- One iteration of the module-level batch loop for one url: on a
successful fetch the scraper is built and the overview buttons are
extracted and emitted; on a `RequestException` the error manager logs
one url error and no output is emitted.  The HTTP fetch and HTML parse
(`requests.get` plus `BeautifulSoup`) are the external collaborator
`fetch`. -/
def processUrl (fetch : String → Except String (List Node)) (url : String) :
    Option (String × List Str) × List LogEntry :=
  match fetch url with
  | .ok doc => (some (url, extract_overview_buttons doc), [])
  | .error cause => (none, [handle_url_error url cause])

/-- The module-level batch loop: iterate the url list in order,
accumulating the emitted outputs and the error log. -/
def runBatch (fetch : String → Except String (List Node)) (urls : List String) :
    List (String × List Str) × List LogEntry :=
  urls.foldl
    (fun acc url =>
      (acc.1 ++ (processUrl fetch url).1.toList, acc.2 ++ (processUrl fetch url).2))
    ([], [])

/-- The assembled result for one document (spec section 3). -/
structure FacilityRecord where
  name : Option Str
  overviewLabels : List Str
  contact : ContactDict
  addressParts : Option (List Str × Str × Str × Str)
  description : Option Str
  rating : Option (Str × Str)
  ratingFactors : List Str
  amenities : List Str
  saleText : Option Str
  imageUrls : List Str

/-- Modelled from the spec: the Record Assembler (spec sections 4.2 and
7) is missing from the source — the batch loop only carries the
placeholder comment "Include other extraction methods as needed".  Per
the spec it invokes every field extractor once, redirects an
extractor-level failure to the Error Manager as a field error (severity
warning, via `handle_element_error`), sets that field absent in the
record, and lets every other field proceed normally. -/
def assembleRecord (doc : List Node) : FacilityRecord × List LogEntry :=
  ({ name := extract_pole_studio_name doc
     overviewLabels := extract_overview_buttons doc
     contact := extract_contact_info doc
     addressParts := match extract_address doc with
       | .ok v => v
       | .error _ => none
     description := extract_description doc
     rating := match extract_rating doc with
       | .ok v => v
       | .error _ => none
     ratingFactors := extract_rating_factors doc
     amenities := extract_art doc
     saleText := extract_sale doc
     imageUrls := extract_image_urls doc },
   (match extract_address doc with
     | .ok _ => []
     | .error e => [handle_element_error "address" (pyErrMsg e)]) ++
   (match extract_rating doc with
     | .ok _ => []
     | .error e => [handle_element_error "rating" (pyErrMsg e)]))

/-- Whether a rating-factor item has both required paragraphs. -/
def rfWellFormed (item : Node) : Bool :=
  (item.find "p" (some clsRatingFactorLabel)).isSome &&
  (item.find "p" (some clsRatingFactorValue)).isSome

/-- The rendered entry of a well-formed rating-factor item. -/
def rfRender (item : Node) : Str :=
  (match item.find "p" (some clsRatingFactorLabel) with
    | some l => l.innerText
    | none => []) ++ str ": " ++
  (match item.find "p" (some clsRatingFactorValue) with
    | some v => v.innerText
    | none => [])

/-- Whether a picture container has an `img` descendant carrying `src`. -/
def imgWellFormed (div : Node) : Bool :=
  match div.find "img" none with
  | some img => (img.attrVal "src").isSome
  | none => false

/-- The `src` of a well-formed picture container. -/
def imgRender (div : Node) : Str :=
  match div.find "img" none with
  | some img =>
    match img.attrVal "src" with
    | some s => s
    | none => []
  | none => []

/-- Anchor with the mailto href of the three-anchor contact scenario. -/
def aMailW : Node := Node.elem "a" "" [("href", str "mailto:a@x.com")] []

/-- Anchor with the tel href of the three-anchor contact scenario. -/
def aTelW : Node := Node.elem "a" "" [("href", str "tel:123")] []

/-- Anchor with the plain https href of the three-anchor contact
scenario. -/
def aHomeW : Node := Node.elem "a" "" [("href", str "https://example.com")] []

/-- A document whose single contact container holds exactly the given
anchors. -/
def contactDocOf (anchors : List Node) : List Node :=
  [Node.elem "div" clsContact [] anchors]

/-- Rating element with the well-formed text of the spec's example. -/
def c4ElGood : Node := Node.elem "p" clsRating [] [Node.text (str "4.8 (123)")]

/-- Document holding only `c4ElGood`. -/
def c4DocGood : List Node := [c4ElGood]

/-- Rating element whose text holds no parenthesis. -/
def c4ElNoParen : Node := Node.elem "p" clsRating [] [Node.text (str "4.8")]

/-- Document holding only `c4ElNoParen`. -/
def c4DocNoParen : List Node := [c4ElNoParen]

/-- Address element with the spec's example text. -/
def c5ElW : Node := Node.elem "p" clsAddress [] [Node.text (str "Main St 5, 10115 Berlin")]

/-- Document holding only `c5ElW`. -/
def c5DocW : List Node := [c5ElW]

/-- Document whose address element's text holds no comma, so the
second-segment index is out of range. -/
def c6DocW : List Node := [Node.elem "p" clsAddress [] [Node.text (str "Main St 5")]]

/-- A concrete loader: the url `bad` fails with a request error, every
other url fetches an empty document. -/
def c1FetchW : String → Except String (List Node) :=
  fun u => if u = "bad" then .error "boom" else .ok []

/-- A list comprehension with a filter, `[f x for x in l if p x]`, is
the map of `f` over the filtered list. -/
theorem filterMap_if_eq_map_filter {α β : Type} (g : α → Option β) (p : α → Bool)
    (f : α → β) (hg : ∀ x, g x = if p x then some (f x) else none) (l : List α) :
    l.filterMap g = (l.filter p).map f := by
  induction l with
  | nil => rfl
  | cons a l ih =>
    rw [List.filterMap_cons, List.filter_cons]
    cases hpa : p a with
    | false => simpa [hg a, hpa] using ih
    | true => simp [hg a, hpa, ih]

/-- The batch loop splits into the emitted outputs (one per successful
url, in input order) and the concatenated per-url logs. -/
theorem runBatch_eq (fetch : String → Except String (List Node)) (urls : List String) :
    runBatch fetch urls =
      (urls.filterMap (fun u => (processUrl fetch u).1),
       urls.flatMap (fun u => (processUrl fetch u).2)) := by
  suffices h : ∀ (us : List String) (rs : List (String × List Str)) (ls : List LogEntry),
      us.foldl
        (fun acc url => (acc.1 ++ (processUrl fetch url).1.toList, acc.2 ++ (processUrl fetch url).2))
        (rs, ls)
        = (rs ++ us.filterMap (fun u => (processUrl fetch u).1),
           ls ++ us.flatMap (fun u => (processUrl fetch u).2)) by
    simpa [runBatch] using h urls [] []
  intro us
  induction us with
  | nil => intro rs ls; simp
  | cons u us ih =>
    intro rs ls
    rw [List.foldl_cons, ih]
    cases h1 : (processUrl fetch u).1 <;>
      simp [List.filterMap_cons, h1]

/-- A url different from the target produces no log entry referencing
the target. -/
theorem processUrl_count_ne (fetch : String → Except String (List Node))
    {u url cause : String} (hne : u ≠ url) :
    ((processUrl fetch u).2).count (LogEntry.retrievalError url cause) = 0 := by
  unfold processUrl
  cases hf : fetch u with
  | ok d => simp
  | error c =>
    simp only [handle_url_error, List.count_eq_zero, List.mem_singleton]
    intro hEq
    injection hEq with h1 h2
    exact hne h1.symm

/-- A url absent from the batch input is referenced by no retrieval
error in the batch log. -/
theorem flatMap_count_zero (fetch : String → Except String (List Node))
    (urls : List String) (url cause : String) (h : urls.count url = 0) :
    (urls.flatMap fun u => (processUrl fetch u).2).count
      (LogEntry.retrievalError url cause) = 0 := by
  induction urls with
  | nil => rfl
  | cons u us ih =>
    rw [List.count_cons] at h
    have hus : us.count url = 0 := Nat.eq_zero_of_add_eq_zero_right h
    have hif : (if u == url then 1 else 0) = 0 := Nat.eq_zero_of_add_eq_zero_left h
    have hne : ¬ (u = url) := by
      intro hEq
      subst hEq
      simp at hif
    rw [List.flatMap_cons, List.count_append, ih hus, processUrl_count_ne fetch hne]

/-- A url occurring once in the batch input whose fetch fails is
referenced by exactly one retrieval error in the batch log. -/
theorem flatMap_count_one (fetch : String → Except String (List Node))
    (urls : List String) (url cause : String)
    (honce : urls.count url = 1) (hfail : fetch url = .error cause) :
    (urls.flatMap fun u => (processUrl fetch u).2).count
      (LogEntry.retrievalError url cause) = 1 := by
  induction urls with
  | nil => simp at honce
  | cons u us ih =>
    rw [List.count_cons] at honce
    rw [List.flatMap_cons, List.count_append]
    by_cases hu : u = url
    · subst hu
      have h0 : us.count u = 0 := by simpa using honce
      have hone : ((processUrl fetch u).2).count (LogEntry.retrievalError u cause) = 1 := by
        unfold processUrl
        rw [hfail]
        simp [handle_url_error]
      rw [hone, flatMap_count_zero fetch us u cause h0]
    · have hif : (if u == url then 1 else 0) = 0 := by simp [hu]
      rw [hif] at honce
      have h1 : us.count url = 1 := by omega
      rw [processUrl_count_ne fetch hu, ih h1]

/-- A list permuting a two-element list is one of its two orderings. -/
theorem perm_two_cases {α : Type} {l : List α} {a b : α} (h : l.Perm [a, b]) :
    l = [a, b] ∨ l = [b, a] := by
  obtain ⟨x, y, rfl⟩ : ∃ x y, l = [x, y] := by
    have hl := h.length_eq
    match l, hl with
    | [x, y], _ => exact ⟨x, y, rfl⟩
  have hx : x ∈ [a, b] := h.mem_iff.mp (by simp)
  simp only [List.mem_cons, List.not_mem_nil, or_false] at hx
  rcases hx with rfl | rfl
  · have h2 := h.cons_inv
    rw [List.perm_singleton.mp h2]
    exact Or.inl rfl
  · have hs : ([a, x] : List α).Perm ([x, a]) := List.Perm.swap x a []
    have h2 := (h.trans hs).cons_inv
    rw [List.perm_singleton.mp h2]
    exact Or.inr rfl

/-- A list permuting a three-element list is one of its six orderings. -/
theorem perm_three_cases {α : Type} {l : List α} {a b c : α} (h : l.Perm [a, b, c]) :
    l = [a, b, c] ∨ l = [a, c, b] ∨ l = [b, a, c] ∨ l = [b, c, a] ∨
      l = [c, a, b] ∨ l = [c, b, a] := by
  obtain ⟨x, rest, rfl⟩ : ∃ x rest, l = x :: rest := by
    have hl := h.length_eq
    match l, hl with
    | x :: rest, _ => exact ⟨x, rest, rfl⟩
  have hx : x ∈ [a, b, c] := h.mem_iff.mp (by simp)
  simp only [List.mem_cons, List.not_mem_nil, or_false] at hx
  rcases hx with rfl | rfl | rfl
  · rcases perm_two_cases h.cons_inv with rfl | rfl
    · exact Or.inl rfl
    · exact Or.inr (Or.inl rfl)
  · have hs : ([a, x, c] : List α).Perm (x :: a :: [c]) := List.Perm.swap x a [c]
    rcases perm_two_cases ((h.trans hs).cons_inv) with rfl | rfl
    · exact Or.inr (Or.inr (Or.inl rfl))
    · exact Or.inr (Or.inr (Or.inr (Or.inl rfl)))
  · have hs1 : ([a, b, x] : List α).Perm ([a, x, b]) :=
      List.Perm.cons a (List.Perm.swap x b [])
    have hs2 : ([a, x, b] : List α).Perm (x :: a :: [b]) := List.Perm.swap x a [b]
    rcases perm_two_cases ((h.trans (hs1.trans hs2)).cons_inv) with rfl | rfl
    · exact Or.inr (Or.inr (Or.inr (Or.inr (Or.inl rfl))))
    · exact Or.inr (Or.inr (Or.inr (Or.inr (Or.inr rfl))))

/-- Assigning an existing key leaves the dict's key list unchanged. -/
theorem dictSet_keys (m : ContactDict) (k : String) (v : Option Str)
    (hk : m.any (fun p => p.1 = k) = true) :
    (dictSet m k v).map Prod.fst = m.map Prod.fst := by
  simp only [dictSet, hk, if_true]
  rw [List.map_map]
  apply List.map_congr_left
  intro p _
  by_cases hp : p.1 = k <;> simp [hp]

/-- A dict whose key list is the contact keys answers `any` positively
for each contact key. -/
theorem contact_any_of_keys (m : ContactDict) (k : String)
    (hm : m.map Prod.fst = ["E-Mail", "Homepage", "Telefon"])
    (hk : k = "E-Mail" ∨ k = "Homepage" ∨ k = "Telefon") :
    m.any (fun p => p.1 = k) = true := by
  have hmem : k ∈ m.map Prod.fst := by
    rw [hm]
    rcases hk with rfl | rfl | rfl <;> simp
  rcases List.mem_map.mp hmem with ⟨p, hp, hpk⟩
  exact List.any_eq_true.mpr ⟨p, hp, by simp [hpk]⟩

/-- One anchor-classification step leaves the contact keys unchanged. -/
theorem contactStep_keys (m : ContactDict) (h : Str)
    (hm : m.map Prod.fst = ["E-Mail", "Homepage", "Telefon"]) :
    (contactStep m h).map Prod.fst = ["E-Mail", "Homepage", "Telefon"] := by
  unfold contactStep
  split
  · rw [dictSet_keys m _ _ (contact_any_of_keys m _ hm (Or.inl rfl)), hm]
  · split
    · rw [dictSet_keys m _ _ (contact_any_of_keys m _ hm (Or.inr (Or.inr rfl))), hm]
    · rw [dictSet_keys m _ _ (contact_any_of_keys m _ hm (Or.inr (Or.inl rfl))), hm]

/-- The classification fold leaves the contact keys unchanged. -/
theorem contact_foldl_keys (hs : List Str) :
    ∀ m : ContactDict, m.map Prod.fst = ["E-Mail", "Homepage", "Telefon"] →
      (hs.foldl contactStep m).map Prod.fst = ["E-Mail", "Homepage", "Telefon"] := by
  induction hs with
  | nil => intro m hm; simpa using hm
  | cons h hs ih =>
    intro m hm
    rw [List.foldl_cons]
    exact ih _ (contactStep_keys m h hm)

/-- C3: for every document whose contact container holds exactly two
anchors with mailto hrefs, `a@x.com` first and `b@x.com` second in
document order (whatever the anchors' class attributes and the
container's other attributes), `extract_contact_info` returns
`E-Mail = "b@x.com"`: the later matching anchor overwrites the earlier
one (last-write-wins), and no other key is assigned. -/
theorem contact_last_write_wins (cA cB : String) (dAttrs : List (String × Str)) :
    extract_contact_info
      [Node.elem "div" clsContact dAttrs
        [Node.elem "a" cA [("href", str "mailto:a@x.com")] [],
         Node.elem "a" cB [("href", str "mailto:b@x.com")] []]] =
      [("E-Mail", some (str "b@x.com")), ("Homepage", none), ("Telefon", none)] := rfl

/-- C5: for every document whose address element's text is
`"Main St 5, 10115 Berlin"`, `extract_address` splits it on commas into
the segments `["Main St 5", " 10115 Berlin"]` and returns, in the
source's tuple order, those raw segments, the city `"Berlin"` (token 2
of the space-split second segment), the postal code `"10115"` (token 1),
and the street `"Main St 5"` (the first segment verbatim). -/
theorem address_components_example (doc : List Node) (el : Node)
    (hfind : soupFind doc "p" (some clsAddress) = some el)
    (htext : el.innerText = str "Main St 5, 10115 Berlin") :
    extract_address doc =
      .ok (some ([str "Main St 5", str " 10115 Berlin"],
        str "Berlin", str "10115", str "Main St 5")) := by
  unfold extract_address
  rw [hfind]
  simp only [htext]
  rfl

/-- Witness for C5 at a concrete one-element document. -/
theorem address_components_example_witness :
    extract_address c5DocW =
      .ok (some ([str "Main St 5", str " 10115 Berlin"],
        str "Berlin", str "10115", str "Main St 5")) :=
  address_components_example c5DocW c5ElW rfl rfl

/-- C8: for every document where the name, description or sale selector
matches zero elements, the corresponding extractor returns `None`
rather than raising; the extractors touch no logger, so no error of any
kind is logged for the field. -/
theorem scalar_selectors_absent (doc : List Node) :
    (soupFind doc "h1" (some clsName) = none → extract_pole_studio_name doc = none) ∧
    (soupFind doc "div" (some clsDescription) = none → extract_description doc = none) ∧
    (soupFind doc "p" (some clsSale) = none → extract_sale doc = none) := by
  refine ⟨fun h => ?_, fun h => ?_, fun h => ?_⟩
  · simp [extract_pole_studio_name, h]
  · simp [extract_description, h]
  · simp [extract_sale, h]

/-- Witness for C8 at the empty document, where every selector matches
nothing. -/
theorem scalar_selectors_absent_witness :
    extract_pole_studio_name [] = none ∧
    extract_description [] = none ∧
    extract_sale [] = none :=
  ⟨(scalar_selectors_absent []).1 rfl, (scalar_selectors_absent []).2.1 rfl,
    (scalar_selectors_absent []).2.2 rfl⟩

/-- C9: for every document, the contact mapping's key list is exactly
`E-Mail`, `Homepage`, `Telefon` — no key is added or removed, each value
an optional string by type — and when the contact containers yield no
anchor hrefs at all the result is the initial dict with all three
values `None`. -/
theorem contact_keys_invariant (doc : List Node) :
    ((extract_contact_info doc).map Prod.fst = ["E-Mail", "Homepage", "Telefon"]) ∧
    (contactHrefs doc = [] → extract_contact_info doc = contactInit) := by
  constructor
  · unfold extract_contact_info
    exact contact_foldl_keys (contactHrefs doc) contactInit rfl
  · intro h
    unfold extract_contact_info
    rw [h]
    rfl

/-- Witness for C9 at the empty document, which has no contact divs and
hence no anchors. -/
theorem contact_keys_invariant_witness :
    ((extract_contact_info []).map Prod.fst = ["E-Mail", "Homepage", "Telefon"]) ∧
    extract_contact_info [] = contactInit :=
  ⟨(contact_keys_invariant []).1, (contact_keys_invariant []).2 rfl⟩

/-- C10: for every document, each sequence-field extractor returns the
empty list — by its return type never `None` — when its selector
matches nothing. -/
theorem sequence_fields_empty_on_no_match (doc : List Node) :
    (soupFindAll doc "div" (some clsOverview) = [] → extract_overview_buttons doc = []) ∧
    (soupFindAll doc "div" (some clsRatingFactorItem) = [] → extract_rating_factors doc = []) ∧
    (soupFindAll doc "p" (some clsArt) = [] → extract_art doc = []) ∧
    (soupFindAll doc "div" (some clsImage) = [] → extract_image_urls doc = []) := by
  refine ⟨fun h => ?_, fun h => ?_, fun h => ?_, fun h => ?_⟩
  · simp [extract_overview_buttons, h]
  · simp [extract_rating_factors, h]
  · simp [extract_art, h]
  · simp [extract_image_urls, h]

/-- Witness for C10 at the empty document, where every selector matches
nothing. -/
theorem sequence_fields_empty_on_no_match_witness :
    extract_overview_buttons [] = [] ∧
    extract_rating_factors [] = [] ∧
    extract_art [] = [] ∧
    extract_image_urls [] = [] :=
  ⟨(sequence_fields_empty_on_no_match []).1 rfl,
    (sequence_fields_empty_on_no_match []).2.1 rfl,
    (sequence_fields_empty_on_no_match []).2.2.1 rfl,
    (sequence_fields_empty_on_no_match []).2.2.2 rfl⟩

/-- C2: for every ordering of the three anchors with hrefs
`mailto:a@x.com`, `tel:123` and `https://example.com` inside the contact
container, `extract_contact_info` classifies each href by its scheme
alone — mailto to `E-Mail` (scheme stripped), tel to `Telefon` (scheme
stripped), anything else to `Homepage` verbatim — so the result is the
same mapping for all six anchor orders. -/
theorem contact_three_anchors_any_order (l : List Node)
    (hperm : l.Perm [aMailW, aTelW, aHomeW]) :
    extract_contact_info (contactDocOf l) =
      [("E-Mail", some (str "a@x.com")),
       ("Homepage", some (str "https://example.com")),
       ("Telefon", some (str "123"))] := by
  rcases perm_three_cases hperm with rfl | rfl | rfl | rfl | rfl | rfl <;> rfl

/-- Witness for C2 at the identity ordering of the three anchors. -/
theorem contact_three_anchors_any_order_witness :
    extract_contact_info (contactDocOf [aMailW, aTelW, aHomeW]) =
      [("E-Mail", some (str "a@x.com")),
       ("Homepage", some (str "https://example.com")),
       ("Telefon", some (str "123"))] :=
  contact_three_anchors_any_order [aMailW, aTelW, aHomeW] (List.Perm.refl _)

/-- Counterexample to C4 as stated: on a document whose rating element's
text is `"4.8"` — present, but containing no `(` — `extract_rating`
raises `IndexError` (the source indexes `parts[1]` of a one-piece
split), so the rating is an error, not the absent value the claim
asserts. -/
theorem rating_no_paren_counterexample :
    extract_rating c4DocNoParen = .error PyErr.indexError ∧
    extract_rating c4DocNoParen ≠ .ok none := by
  constructor
  · rfl
  · intro h
    exact Except.noConfusion
      ((rfl : extract_rating c4DocNoParen = Except.error PyErr.indexError).symm.trans h)

/-- C4 as amended: `extract_rating` splits the matched element's text at
`(` and returns the pair (piece 0 stripped, piece 1 with every `)`
removed and stripped) — for `"4.8 (123)"` the pair `("4.8", "123")`;
when the text holds no `(` (the split yields a single piece) extraction
raises `IndexError` rather than returning absent; the rating is absent
only when no rating element matches. -/
theorem rating_split_semantics (doc : List Node) :
    (soupFind doc "p" (some clsRating) = none → extract_rating doc = .ok none) ∧
    (∀ el p0 p1 rest, soupFind doc "p" (some clsRating) = some el →
      strSplit el.innerText (str "(") = p0 :: p1 :: rest →
      extract_rating doc =
        .ok (some (strStrip p0, strStrip (strReplace p1 (str ")") (str ""))))) ∧
    (∀ el p0, soupFind doc "p" (some clsRating) = some el →
      strSplit el.innerText (str "(") = [p0] →
      extract_rating doc = .error PyErr.indexError) := by
  refine ⟨fun h => ?_, fun el p0 p1 rest hfind hsplit => ?_, fun el p0 hfind hsplit => ?_⟩
  · unfold extract_rating
    rw [h]
  · unfold extract_rating
    rw [hfind]
    simp only [hsplit]
    rfl
  · unfold extract_rating
    rw [hfind]
    simp only [hsplit]
    rfl

/-- Witness for C4's amended claim: the well-formed example, the
no-parenthesis error, and the missing-element absence, each at a
concrete document. -/
theorem rating_split_semantics_witness :
    extract_rating c4DocGood = .ok (some (str "4.8", str "123")) ∧
    extract_rating c4DocNoParen = .error PyErr.indexError ∧
    extract_rating ([] : List Node) = .ok none :=
  ⟨(rating_split_semantics c4DocGood).2.1 c4ElGood (str "4.8 ") (str "123)") [] rfl rfl,
    (rating_split_semantics c4DocNoParen).2.2 c4ElNoParen (str "4.8") rfl rfl,
    (rating_split_semantics []).1 rfl⟩

/-- C7: for every document, the rating-factor and image extractors
return exactly the well-formed matched elements' derived values, in
document order — so when the selector matches N elements of which M are
malformed (missing label or value paragraph, missing `img` or `src`),
the result has exactly N − M entries; the extractors touch no logger,
so nothing is logged for the skipped elements. -/
theorem sequence_fields_skip_malformed (doc : List Node) :
    (extract_rating_factors doc =
      ((soupFindAll doc "div" (some clsRatingFactorItem)).filter rfWellFormed).map rfRender) ∧
    ((extract_rating_factors doc).length =
      (soupFindAll doc "div" (some clsRatingFactorItem)).length -
        ((soupFindAll doc "div" (some clsRatingFactorItem)).filter
          (fun i => ! rfWellFormed i)).length) ∧
    (extract_image_urls doc =
      ((soupFindAll doc "div" (some clsImage)).filter imgWellFormed).map imgRender) ∧
    ((extract_image_urls doc).length =
      (soupFindAll doc "div" (some clsImage)).length -
        ((soupFindAll doc "div" (some clsImage)).filter
          (fun i => ! imgWellFormed i)).length) := by
  have h1 : ∀ item, ratingFactorEntry item =
      if rfWellFormed item then some (rfRender item) else none := by
    intro item
    unfold ratingFactorEntry rfWellFormed rfRender
    cases item.find "p" (some clsRatingFactorLabel) <;>
      cases item.find "p" (some clsRatingFactorValue) <;> simp
  have h2 : ∀ d, imageEntry d = if imgWellFormed d then some (imgRender d) else none := by
    intro d
    unfold imageEntry imgWellFormed imgRender
    cases hf : d.find "img" none with
    | none => simp
    | some img => cases himg : img.attrVal "src" <;> simp [himg]
  have e1 := filterMap_if_eq_map_filter _ _ _ h1 (soupFindAll doc "div" (some clsRatingFactorItem))
  have e2 := filterMap_if_eq_map_filter _ _ _ h2 (soupFindAll doc "div" (some clsImage))
  have hlen1 := List.length_eq_length_filter_add
    (l := soupFindAll doc "div" (some clsRatingFactorItem)) rfWellFormed
  have hlen2 := List.length_eq_length_filter_add
    (l := soupFindAll doc "div" (some clsImage)) imgWellFormed
  refine ⟨?_, ?_, ?_, ?_⟩
  · unfold extract_rating_factors
    exact e1
  · unfold extract_rating_factors
    rw [e1, List.length_map]
    omega
  · unfold extract_image_urls
    exact e2
  · unfold extract_image_urls
    rw [e2, List.length_map]
    omega

/-- C1: for every locator in the batch input (occurring once) whose
fetch fails with a request error, the batch loop emits no output for
that locator, logs exactly one retrieval error referencing it, and every
other locator whose fetch succeeds still has its output emitted — no
individual failure aborts the batch. -/
theorem batch_retrieval_error_isolated
    (fetch : String → Except String (List Node)) (urls : List String)
    (url cause : String)
    (hmem : url ∈ urls) (hfail : fetch url = .error cause)
    (honce : urls.count url = 1) :
    (∀ r ∈ (runBatch fetch urls).1, r.1 ≠ url) ∧
    ((runBatch fetch urls).2.count (LogEntry.retrievalError url cause) = 1) ∧
    (∀ u doc, u ∈ urls → fetch u = .ok doc →
      (u, extract_overview_buttons doc) ∈ (runBatch fetch urls).1) := by
  rw [runBatch_eq]
  refine ⟨?_, ?_, ?_⟩
  · intro r hr hrEq
    rcases List.mem_filterMap.mp hr with ⟨u, hu, hpu⟩
    unfold processUrl at hpu
    cases hf : fetch u with
    | ok d =>
      rw [hf] at hpu
      have hru : r.1 = u := by
        cases hpu
        rfl
      rw [hrEq] at hru
      rw [hru] at hfail
      rw [hfail] at hf
      exact Except.noConfusion hf
    | error c =>
      rw [hf] at hpu
      exact Option.noConfusion hpu
  · exact flatMap_count_one fetch urls url cause honce hfail
  · intro u doc hu hok
    refine List.mem_filterMap.mpr ⟨u, hu, ?_⟩
    unfold processUrl
    rw [hok]

/-- Witness for C1: a two-url batch where the url `bad` fails with the
request error `boom` and the url `good` fetches an empty document. -/
theorem batch_retrieval_error_isolated_witness :
    (∀ r ∈ (runBatch c1FetchW ["good", "bad"]).1, r.1 ≠ "bad") ∧
    ((runBatch c1FetchW ["good", "bad"]).2.count (LogEntry.retrievalError "bad" "boom") = 1) ∧
    (∀ u doc, u ∈ ["good", "bad"] → c1FetchW u = .ok doc →
      (u, extract_overview_buttons doc) ∈ (runBatch c1FetchW ["good", "bad"]).1) :=
  batch_retrieval_error_isolated c1FetchW ["good", "bad"] "bad" "boom"
    (by simp) rfl (by decide)

/-- C6: for every document whose address element is present but whose
text yields too few tokens for the fixed positions — so
`extract_address` raises — the assembled record has the address field
absent, the error log holds exactly one field error for the address, and
every other field of the same record is still the value of its own
extractor; the record itself is still produced. -/
theorem address_failure_isolated_in_record (doc : List Node) (e : PyErr)
    (hel : (soupFind doc "p" (some clsAddress)).isSome = true)
    (herr : extract_address doc = .error e) :
    ((assembleRecord doc).1.addressParts = none) ∧
    ((assembleRecord doc).2.count (handle_element_error "address" (pyErrMsg e)) = 1) ∧
    ((assembleRecord doc).1.name = extract_pole_studio_name doc) ∧
    ((assembleRecord doc).1.overviewLabels = extract_overview_buttons doc) ∧
    ((assembleRecord doc).1.contact = extract_contact_info doc) ∧
    ((assembleRecord doc).1.description = extract_description doc) ∧
    ((assembleRecord doc).1.ratingFactors = extract_rating_factors doc) ∧
    ((assembleRecord doc).1.amenities = extract_art doc) ∧
    ((assembleRecord doc).1.saleText = extract_sale doc) ∧
    ((assembleRecord doc).1.imageUrls = extract_image_urls doc) := by
  refine ⟨by simp [assembleRecord, herr], ?_, by simp [assembleRecord, herr]⟩
  cases hrat : extract_rating doc with
  | ok v =>
    simp [assembleRecord, herr, hrat, handle_element_error, List.count_cons]
  | error e2 =>
    simp [assembleRecord, herr, hrat, handle_element_error, List.count_cons,
      List.count_append]

/-- Witness for C6 at a concrete document whose address text `Main St 5`
holds no comma, so indexing the second segment raises. -/
theorem address_failure_isolated_in_record_witness :
    ((assembleRecord c6DocW).1.addressParts = none) ∧
    ((assembleRecord c6DocW).2.count
      (handle_element_error "address" (pyErrMsg PyErr.indexError)) = 1) ∧
    ((assembleRecord c6DocW).1.name = extract_pole_studio_name c6DocW) ∧
    ((assembleRecord c6DocW).1.overviewLabels = extract_overview_buttons c6DocW) ∧
    ((assembleRecord c6DocW).1.contact = extract_contact_info c6DocW) ∧
    ((assembleRecord c6DocW).1.description = extract_description c6DocW) ∧
    ((assembleRecord c6DocW).1.ratingFactors = extract_rating_factors c6DocW) ∧
    ((assembleRecord c6DocW).1.amenities = extract_art c6DocW) ∧
    ((assembleRecord c6DocW).1.saleText = extract_sale c6DocW) ∧
    ((assembleRecord c6DocW).1.imageUrls = extract_image_urls c6DocW) :=
  address_failure_isolated_in_record c6DocW PyErr.indexError rfl rfl
